import Mathlib

/-!
Verification development for the star-schema ETL pipeline in `src/main.py`.

The script reads four CSV datasets, aggregates the order-detail line items,
builds time/customer/product dimension tables with pandas, assembles a sales
fact table through a chain of left-outer merges, and loads the four result
tables into a warehouse one table at a time.

The embedding below models tabular data the way pandas does at the level of
observability the script uses: a `DataFrame` is an ordered list of column
names together with rows of cells, a cell is a string, an integer, an exact
rational, or the missing marker `NaN`.  The pandas behaviours the script
exercises are reproduced faithfully:

* `pd.concat` on frames with different column names aligns by column name and
  fills the holes with `NaN` (outer join of the column sets, order of first
  appearance, the modern default `sort=False`);
* `drop_duplicates` removes later rows equal to an earlier row, where `NaN`
  cells compare equal to `NaN` cells;
* `merge(..., how='left')` keeps every left row, duplicates a left row once
  per matching right row, fills `NaN` when there is no match, and raises
  `KeyError` when a requested join column is absent; column names shared by
  both frames receive the suffixes `_x`/`_y` — with `on=` the single join
  key is exempt, while with `left_on`/`right_on` every shared name is
  suffixed, key names included, and a suffix that produces a duplicate
  column label raises `MergeError` (pandas 2.x behaviour; the dependency in
  `src` is unpinned and the other behaviours modeled here are likewise the
  modern defaults);
* `groupby(k)[c].sum()` / `.mean()` produce one row per distinct non-`NaN`
  key with the sum (resp. arithmetic mean) of the non-`NaN` cells of the
  aggregated column (`skipna`);  pandas additionally sorts the group keys,
  which we do not reproduce: every statement proved below is invariant under
  permuting the rows of the aggregate tables (they are only used through
  key lookups and as unique-key right sides of merges);
* `pd.to_datetime(column, format="%d/%m/%Y")` parses every non-`NaN` cell
  with the fixed day/month/year format, raises on the first cell that does
  not match, and passes `NaN` through as `NaT` (whose `.dt` accessors give
  `NaN`).

Numeric cells use exact rationals rather than IEEE doubles; the sums and
means stated below involve only these exact values.
-/

/-- A cell of a pandas DataFrame as used by the script: a string, an
integer, a rational number, or the missing-data marker `NaN`.  Note that in
this embedding `nan = nan`, which matches how the script observes `NaN`:
`drop_duplicates` and merge keys treat `NaN` as equal to `NaN` in pandas. -/
inductive Value where
  | str : String → Value
  | int : Int → Value
  | rat : ℚ → Value
  | nan : Value
deriving DecidableEq, Repr

/-- The error kinds a run of `etl_process` can surface (the Python script
stringifies the underlying exceptions; we keep them structured):
`missingInput f` is the storage NotFound error raised when blob `f` cannot
be downloaded, `dateParseError s` is the ValueError raised by
`pd.to_datetime` on the string `s`, `keyError c` is the pandas KeyError for
a missing column `c`, `mergeError k` is the pandas MergeError raised when
the suffixes of the merge keyed on `k` would create duplicate column
labels, and `sinkWriteError t` is a failed warehouse load of table `t`. -/
inductive PError where
  | missingInput : String → PError
  | dateParseError : String → PError
  | keyError : String → PError
  | mergeError : String → PError
  | sinkWriteError : String → PError
deriving DecidableEq, Repr

/-- A tabular dataset: ordered column names plus rows of cells.  Every row
of a well-formed frame has exactly `cols.length` cells; the operations below
preserve this. -/
structure DataFrame where
  cols : List String
  rows : List (List Value)
deriving DecidableEq, Repr

/-- Cell access with the pandas missing-data default. -/
def getCell (r : List Value) (i : Nat) : Value := r.getD i Value.nan

/-- Index of a column name in the frame's column list. -/
def DataFrame.colIdx (df : DataFrame) (c : String) : Option Nat :=
  df.cols.findIdx? (fun x => x == c)

/-- A whole column of the frame, as a list of cells. -/
def DataFrame.col (df : DataFrame) (c : String) : Option (List Value) :=
  match df.colIdx c with
  | some i => some (df.rows.map (fun r => getCell r i))
  | none => none

/-- Column projection `df[[c1, ..., cn]]`; raises `KeyError` when one of the
requested columns is absent, like pandas. -/
def DataFrame.select (df : DataFrame) (cs : List String) : Except PError DataFrame :=
  match cs.find? (fun c => (df.colIdx c).isNone) with
  | some c => .error (.keyError c)
  | none =>
    .ok { cols := cs,
          rows := df.rows.map (fun r => cs.map (fun c => getCell r ((df.colIdx c).getD 0))) }

/-- Row-wise `pd.concat([a, b])` with the default outer alignment of the
column sets (`sort=False`): the result's columns are `a`'s followed by the
columns of `b` not already present, and each row is re-expressed over this
column list with `NaN` in the columns its source frame lacks. -/
def concatOuter (a b : DataFrame) : DataFrame :=
  let cols := a.cols ++ b.cols.filter (fun c => !(a.cols.contains c))
  let reRow (src : DataFrame) (r : List Value) : List Value :=
    cols.map (fun c =>
      match src.colIdx c with
      | some i => getCell r i
      | none => Value.nan)
  { cols := cols, rows := a.rows.map (reRow a) ++ b.rows.map (reRow b) }

/-- Keep the first occurrence of each element, dropping later duplicates;
this is the row policy of `drop_duplicates()` (pandas keeps `keep='first'`
by default). -/
def dedupFirst {α : Type} [DecidableEq α] : List α → List α
  | [] => []
  | a :: l => a :: (dedupFirst l).filter (fun x => x != a)

/-- Full-row deduplication of a frame: `df.drop_duplicates().reset_index(drop=True)`. -/
def dedupFrame (df : DataFrame) : DataFrame :=
  { cols := df.cols, rows := dedupFirst df.rows }

/-- Rename every column called `old` to `new` (`df.rename(columns={old: new})`);
names not present are silently ignored, like pandas. -/
def DataFrame.renameCol (df : DataFrame) (old new : String) : DataFrame :=
  { df with cols := df.cols.map (fun c => if c == old then new else c) }

/-- Column assignment `df[c] = vals`: replaces the column in place when the
name exists, otherwise appends it on the right.  All uses in the script
supply exactly one value per row. -/
def DataFrame.withColumn (df : DataFrame) (c : String) (vals : List Value) : DataFrame :=
  match df.colIdx c with
  | some i => { cols := df.cols, rows := df.rows.zipWith (fun r v => r.set i v) vals }
  | none => { cols := df.cols ++ [c], rows := df.rows.zipWith (fun r v => r ++ [v]) vals }

/-- Drop a column (`df.drop(columns=[c])`); `KeyError` when absent. -/
def DataFrame.dropCol (df : DataFrame) (c : String) : Except PError DataFrame :=
  match df.colIdx c with
  | none => .error (.keyError c)
  | some i => .ok { cols := df.cols.eraseIdx i, rows := df.rows.map (fun r => r.eraseIdx i) }

/-- Left-outer `l.merge(r, on=k, how='left')`.  Raises `KeyError` when `k`
is missing on either side.  The output keeps every left row, one copy per
matching right row (`NaN`-filled when there is no match); the single key
column keeps the left values; column names shared by both frames other than
the key receive the pandas suffixes `_x`/`_y`. -/
def mergeLeftOn (l r : DataFrame) (k : String) : Except PError DataFrame :=
  match l.colIdx k, r.colIdx k with
  | some li, some ri =>
    let common := fun c => l.cols.contains c && r.cols.contains c && !(c == k)
    .ok { cols := l.cols.map (fun c => if common c then c ++ "_x" else c)
               ++ (r.cols.eraseIdx ri).map (fun c => if common c then c ++ "_y" else c),
          rows := l.rows.flatMap (fun lr =>
            let ms := r.rows.filter (fun rr => getCell rr ri == getCell lr li)
            if ms.isEmpty then [lr ++ List.replicate (r.cols.length - 1) Value.nan]
            else ms.map (fun rr => lr ++ rr.eraseIdx ri)) }
  | none, _ => .error (.keyError k)
  | some _, none => .error (.keyError k)

/-- Left-outer `l.merge(r, left_on=a, right_on=b, how='left')` with `a ≠ b`:
both key columns are kept.  Every column name occurring on both sides —
including a key name that also occurs on the other side — receives the
`_x`/`_y` suffix.  When the suffixing would produce a duplicate column
label (as when a freshly suffixed `c_x` collides with an existing column
already called `c_x`), pandas 2.x raises `MergeError`; the check below
(the renamed label lists must be duplicate-free) coincides with pandas's
suffix-collision check on frames whose labels are unique, which holds for
every frame this program builds (`read_csv` mangles duplicate headers). -/
def mergeLeftLR (l r : DataFrame) (a b : String) : Except PError DataFrame :=
  match l.colIdx a, r.colIdx b with
  | some li, some ri =>
    if (l.cols.map (fun c =>
          if l.cols.contains c && r.cols.contains c then c ++ "_x" else c)).Nodup ∧
       (r.cols.map (fun c =>
          if l.cols.contains c && r.cols.contains c then c ++ "_y" else c)).Nodup then
      .ok { cols := l.cols.map (fun c =>
                if l.cols.contains c && r.cols.contains c then c ++ "_x" else c)
              ++ r.cols.map (fun c =>
                if l.cols.contains c && r.cols.contains c then c ++ "_y" else c),
            rows := l.rows.flatMap (fun lr =>
              let ms := r.rows.filter (fun rr => getCell rr ri == getCell lr li)
              if ms.isEmpty then [lr ++ List.replicate r.cols.length Value.nan]
              else ms.map (fun rr => lr ++ rr)) }
    else .error (.mergeError a)
  | none, _ => .error (.keyError a)
  | some _, none => .error (.keyError b)

/-- Numeric reading of a cell; `none` for `NaN` and strings (pandas `skipna`
ignores exactly the missing cells of a numeric column). -/
def toRat? : Value → Option ℚ
  | .int n => some (n : ℚ)
  | .rat q => some q
  | _ => none

/-- The `sum()` aggregation over the cells of one group (skips `NaN`). -/
def aggSum (cells : List Value) : Value :=
  .rat ((cells.filterMap toRat?).sum)

/-- The `mean()` aggregation over the cells of one group: sum of the
non-`NaN` cells divided by their count (`NaN` on an all-missing group). -/
def aggMean (cells : List Value) : Value :=
  let qs := cells.filterMap toRat?
  if qs.length = 0 then .nan else .rat (qs.sum / (qs.length : ℚ))

/-- The script's `df.groupby(key)[col].agg().reset_index().rename(...)`
pattern: one output row per distinct non-`NaN` key value (pandas
`dropna=True`), carrying the aggregate of the `col` cells of the rows with
that key.  pandas sorts the group keys; we keep first-occurrence order,
which no statement below can observe (see the module comment). -/
def groupbyAgg (df : DataFrame) (key col newName : String)
    (agg : List Value → Value) : Except PError DataFrame :=
  match df.colIdx key, df.colIdx col with
  | some ki, some ci =>
    let keys := (dedupFirst (df.rows.map (fun r => getCell r ki))).filter
      (fun v => v != Value.nan)
    .ok { cols := [key, newName],
          rows := keys.map (fun k =>
            [k, agg ((df.rows.filter (fun r => getCell r ki == k)).map
                      (fun r => getCell r ci))]) }
  | none, _ => .error (.keyError key)
  | some _, none => .error (.keyError col)

/-- Split a character list at every `'/'` (the groups between slashes, with
empty groups kept), mirroring how `strptime` consumes the literal `/` of
the format `"%d/%m/%Y"`. -/
def splitSlash : List Char → List (List Char)
  | [] => [[]]
  | c :: cs =>
    let r := splitSlash cs
    if c = '/' then [] :: r
    else
      match r with
      | [] => [[c]]
      | g :: gs => (c :: g) :: gs

/-- Numeric value of a digit string. -/
def digitsVal (l : List Char) : Nat :=
  l.foldl (fun a c => 10 * a + (c.toNat - 48)) 0

/-- Day count of a month, with the Gregorian leap rule (`strptime`
validates the calendar, e.g. rejects `30/02/2020`). -/
def daysInMonth (m y : Nat) : Nat :=
  if m = 2 then
    if y % 4 = 0 && (y % 100 != 0 || y % 400 = 0) then 29 else 28
  else if m = 4 || m = 6 || m = 9 || m = 11 then 30
  else 31

/-- Strict `strptime(s, "%d/%m/%Y")`: three slash-separated all-digit
groups, day and month of one or two digits, year of up to four digits, and
a valid calendar date.  Returns `(day, month, year)`. -/
def parseDateDMY (s : String) : Option (Nat × Nat × Nat) :=
  match splitSlash s.data with
  | [d, m, y] =>
    if d.all Char.isDigit && m.all Char.isDigit && y.all Char.isDigit
        && !d.isEmpty && !m.isEmpty && !y.isEmpty
        && d.length ≤ 2 && m.length ≤ 2 && y.length ≤ 4 then
      let dv := digitsVal d
      let mv := digitsVal m
      let yv := digitsVal y
      if 1 ≤ mv && mv ≤ 12 && 1 ≤ dv && dv ≤ daysInMonth mv yv then
        some (dv, mv, yv)
      else none
    else none
  | _ => none

/-- Parse one cell the way `pd.to_datetime(..., format="%d/%m/%Y")` treats
it: `NaN` passes through as `NaT` (`none`), a matching string parses, and
anything else raises the ValueError we record as `dateParseError`. -/
def parseCell : Value → Except PError (Option (Nat × Nat × Nat))
  | Value.nan => .ok none
  | Value.str s =>
    match parseDateDMY s with
    | some d => .ok (some d)
    | none => .error (.dateParseError s)
  | Value.int _ => .error (.dateParseError "non-string cell")
  | Value.rat _ => .error (.dateParseError "non-string cell")

/-- Parse a whole column, failing on the first bad cell like
`pd.to_datetime` does on a Series. -/
def parseCol : List Value → Except PError (List (Option (Nat × Nat × Nat)))
  | [] => .ok []
  | v :: vs =>
    match parseCell v with
    | .error e => .error e
    | .ok d =>
      match parseCol vs with
      | .error e => .error e
      | .ok ds => .ok (d :: ds)

/-- Day/Month/Year/Quarter accessor columns of a parsed date column; the
`.dt` accessors give `NaN` on `NaT`. -/
def dtField (f : Nat × Nat × Nat → Nat) (p : Option (Nat × Nat × Nat)) : Value :=
  match p with
  | some d => Value.int (f d)
  | none => Value.nan

/-- Lines 66-73 of `src/main.py`: the time dimension before the date
attributes.  Concatenates the one-column frames `orders[['Order Date']]`
and `orders[['Ship Date']]` (pandas aligns the two distinct column names
side by side with `NaN` holes), drops duplicate rows, renames the first
column (`'Order Date'`) to `'Date'`, and assigns `TimeID = 1..n` in row
order. -/
def time_dim_ids (orders_df : DataFrame) : Except PError DataFrame := do
  let od ← orders_df.select ["Order Date"]
  let sd ← orders_df.select ["Ship Date"]
  let t0 := dedupFrame (concatOuter od sd)
  let t1 := t0.renameCol (t0.cols.headD "") "Date"
  pure (t1.withColumn "TimeID"
    ((List.range t1.rows.length).map (fun i => Value.int (Int.ofNat (i + 1)))))

/-- Lines 76-79: the Day/Month/Year/Quarter attribute columns, derived by
parsing the `'Date'` column with the fixed `%d/%m/%Y` format (the script
calls `pd.to_datetime` once per attribute on the same column; the first
malformed cell raises either way). -/
def time_dim_dates (t2 : DataFrame) : Except PError DataFrame :=
  match t2.col "Date" with
  | none => .error (.keyError "Date")
  | some dateCells =>
    match parseCol dateCells with
    | .error e => .error e
    | .ok parsed =>
      let t3 := t2.withColumn "Day" (parsed.map (dtField (fun d => d.1)))
      let t4 := t3.withColumn "Month" (parsed.map (dtField (fun d => d.2.1)))
      let t5 := t4.withColumn "Year" (parsed.map (dtField (fun d => d.2.2)))
      let t6 := t5.withColumn "Quarter" (parsed.map (dtField (fun d => (d.2.1 - 1) / 3 + 1)))
      pure t6

/-- Lines 66-79 of `src/main.py`: the full time dimension. -/
def time_dim (orders_df : DataFrame) : Except PError DataFrame := do
  let t2 ← time_dim_ids orders_df
  time_dim_dates t2

/-- Line 51: per-customer summed sales. -/
def customer_sales (order_details_df : DataFrame) : Except PError DataFrame :=
  groupbyAgg order_details_df "Customer ID" "Sales" "TotalSalesPerCustomer" aggSum

/-- Line 54: per-order summed sales. -/
def order_sales (order_details_df : DataFrame) : Except PError DataFrame :=
  groupbyAgg order_details_df "Order ID" "Sales" "TotalSalesPerOrder" aggSum

/-- Line 57: per-product summed sales. -/
def product_sales (order_details_df : DataFrame) : Except PError DataFrame :=
  groupbyAgg order_details_df "Product ID" "Sales" "TotalSalesPerProduct" aggSum

/-- Line 60: per-product mean profit. -/
def product_avg_profit (order_details_df : DataFrame) : Except PError DataFrame :=
  groupbyAgg order_details_df "Product ID" "Profit" "AverageProfitPerProduct" aggMean

/-- Line 81: row-deduplicated customer dimension. -/
def customer_dim (customers_df : DataFrame) : DataFrame := dedupFrame customers_df

/-- Line 82: row-deduplicated product dimension. -/
def product_dim (products_df : DataFrame) : DataFrame := dedupFrame products_df

/-- The fixed column list of the final projection (lines 103-108). -/
def salesFactCols : List String :=
  ["Product ID", "Customer ID", "OrderDateID", "ShipDateID", "Order ID",
   "Quantity", "Discount", "Sales", "Profit",
   "TotalSalesPerCustomer", "TotalSalesPerOrder",
   "TotalSalesPerProduct", "AverageProfitPerProduct"]

/-- Lines 85-108 of `src/main.py`: the sales fact table.  Left-merges the
line items with the four aggregate tables, attaches `Order Date` and `Ship
Date` from the order dataset by `Order ID`, then resolves the two time keys
by merging against the time dimension twice (renaming `TimeID` and dropping
`Date` after each), and finally projects onto the fixed fact schema. -/
def sales_fact (order_details_df orders_df td cs osl ps pap : DataFrame) :
    Except PError DataFrame := do
  let s1 ← mergeLeftOn order_details_df cs "Customer ID"
  let s2 ← mergeLeftOn s1 osl "Order ID"
  let s3 ← mergeLeftOn s2 ps "Product ID"
  let s4 ← mergeLeftOn s3 pap "Product ID"
  let osel ← orders_df.select ["Order ID", "Order Date", "Ship Date"]
  let s5 ← mergeLeftOn s4 osel "Order ID"
  let s6 ← mergeLeftLR s5 td "Order Date" "Date"
  let s7 := s6.renameCol "TimeID" "OrderDateID"
  let s8 ← s7.dropCol "Date"
  let s9 ← mergeLeftLR s8 td "Ship Date" "Date"
  let s10 := s9.renameCol "TimeID" "ShipDateID"
  let s11 ← s10.dropCol "Date"
  s11.select salesFactCols

/-- Lines 21-26: the four required source files, in download order. -/
def required_files : List String :=
  ["ordersdf.csv", "customersdf.csv", "orderdetailsdf.csv", "productsdf.csv"]

/-- Lines 34-39: download each required file in order; the first absent
blob raises the storage NotFound error (recorded as `missingInput` with the
file name).  Also returns the list of attempted downloads. -/
def readLoop (store : String → Option DataFrame) :
    List String → List String × Except PError (List DataFrame)
  | [] => ([], .ok [])
  | f :: fs =>
    match store f with
    | none => ([f], .error (.missingInput f))
    | some df =>
      let r := readLoop store fs
      (f :: r.1, r.2.map (fun dfs => df :: dfs))

/-- Lines 47-108: the whole transformation stage, producing the four output
tables keyed by their warehouse table names in load order (the Python dict
preserves insertion order). -/
def transform (orders_df customers_df order_details_df products_df : DataFrame) :
    Except PError (List (String × DataFrame)) := do
  let cs ← customer_sales order_details_df
  let osl ← order_sales order_details_df
  let ps ← product_sales order_details_df
  let pap ← product_avg_profit order_details_df
  let td ← time_dim orders_df
  let cd := customer_dim customers_df
  let pd := product_dim products_df
  let sf ← sales_fact order_details_df orders_df td cs osl ps pap
  pure [("time_dim", td), ("customer_dim", cd), ("product_dim", pd), ("sales_fact", sf)]

/-- Lines 125-130: load the tables into the warehouse one at a time, in
order; a failed load aborts the loop, leaving the earlier tables committed.
`sinkOk t` says whether the load of table `t` succeeds.  Returns the list
of committed table names and the error of the failed load, if any. -/
def writeAll (sinkOk : String → Bool) : List (String × DataFrame) → List String × Option PError
  | [] => ([], none)
  | (n, _) :: rest =>
    if sinkOk n then
      let r := writeAll sinkOk rest
      (n :: r.1, r.2)
    else ([], some (.sinkWriteError n))

/-- Placeholder frame for an impossible positional lookup (the read loop
returns exactly one frame per required file). -/
def emptyDF : DataFrame := { cols := [], rows := [] }

instance : DecidableEq (Except PError Unit) := fun a b =>
  match a, b with
  | .ok (), .ok () => isTrue rfl
  | .error e, .error f =>
    if h : e = f then isTrue (by rw [h]) else isFalse (fun hc => h (by cases hc; rfl))
  | .ok _, .error _ => isFalse (fun hc => Except.noConfusion hc)
  | .error _, .ok _ => isFalse (fun hc => Except.noConfusion hc)

/-- The observable outcome of one invocation of `etl_process`:
`outcome = none` is the silent bare `return` of line 31 (neither the
success tuple nor the error tuple), `some (.ok ())` is the
`("ETL process completed successfully.", 200)` return, and
`some (.error e)` is the `(f"Error: {...}", 500)` return of the top-level
handler.  `reads` lists the attempted blob downloads and `committed` the
warehouse tables whose load completed. -/
structure RunResult where
  reads : List String
  outcome : Option (Except PError Unit)
  committed : List String
deriving DecidableEq, Repr

/-- The function `etl_process` of `src/main.py`, over its collaborators:
`file_name` is the triggering event's file name, `store` the object-storage
contents, and `sinkOk` which warehouse loads succeed. -/
def etl_process (file_name : String) (store : String → Option DataFrame)
    (sinkOk : String → Bool) : RunResult :=
  if required_files.contains file_name then
    match readLoop store required_files with
    | (reads, .error e) => { reads := reads, outcome := some (.error e), committed := [] }
    | (reads, .ok dfs) =>
      match transform (dfs.getD 0 emptyDF) (dfs.getD 1 emptyDF)
                      (dfs.getD 2 emptyDF) (dfs.getD 3 emptyDF) with
      | .error e => { reads := reads, outcome := some (.error e), committed := [] }
      | .ok tables =>
        match writeAll sinkOk tables with
        | (c, some e) => { reads := reads, outcome := some (.error e), committed := c }
        | (c, none) => { reads := reads, outcome := some (.ok ()), committed := c }
  else { reads := [], outcome := none, committed := [] }

/-! ## Spec-side definitions

These few definitions follow the specification's words rather than the
source; they exist only to state the claims (distinct dates across the two
date columns, key lookup in an aggregate table, the documented order-detail
schema). -/

/-- Spec-side: the multiset union of the `Order Date` and `Ship Date`
columns of the order dataset. -/
def specUnionDates (orders_df : DataFrame) : List Value :=
  (orders_df.col "Order Date").getD [] ++ (orders_df.col "Ship Date").getD []

/-- Spec-side: the distinct date values occurring across both date columns,
in order of first appearance. -/
def specDistinctDates (orders_df : DataFrame) : List Value :=
  dedupFirst (specUnionDates orders_df)

/-- Spec-side: look a key up in a two-column aggregate table (key in the
first column, aggregate in the second). -/
def lookupAgg (df : DataFrame) (k : Value) : Option Value :=
  (df.rows.find? (fun r => getCell r 0 == k)).map (fun r => getCell r 1)

/-! ## Concrete test fixtures -/

/-- Build an object store holding exactly the four required datasets. -/
def mkStore (o c d p : DataFrame) : String → Option DataFrame := fun n =>
  if n == "ordersdf.csv" then some o
  else if n == "customersdf.csv" then some c
  else if n == "orderdetailsdf.csv" then some d
  else if n == "productsdf.csv" then some p
  else none

/-- A sink whose loads all succeed. -/
def sinkAlwaysOk : String → Bool := fun _ => true

def customersW : DataFrame := { cols := ["Customer ID"], rows := [[Value.str "C1"]] }

def productsW : DataFrame := { cols := ["Product ID"], rows := [[Value.str "P1"]] }

def detailsW : DataFrame :=
  { cols := ["Order ID", "Customer ID", "Product ID", "Quantity", "Discount", "Sales", "Profit"],
    rows := [[Value.str "1", Value.str "C1", Value.str "P1",
              Value.int 2, Value.rat 0, Value.rat 100, Value.rat 20]] }

/-- C1 fixture: a single order whose Order Date and Ship Date are the same
calendar date, so exactly one distinct date occurs across both columns. -/
def ordersC1 : DataFrame :=
  { cols := ["Order ID", "Order Date", "Ship Date"],
    rows := [[Value.str "1", Value.str "05/06/2021", Value.str "05/06/2021"]] }

/-- C2 fixture: one order whose Order Date equals its Ship Date, with one
matching line item. -/
def ordersC2 : DataFrame :=
  { cols := ["Order ID", "Order Date", "Ship Date"],
    rows := [[Value.str "9", Value.str "02/02/2022", Value.str "02/02/2022"]] }

def detailsC2 : DataFrame :=
  { cols := ["Order ID", "Customer ID", "Product ID", "Quantity", "Discount", "Sales", "Profit"],
    rows := [[Value.str "9", Value.str "C1", Value.str "P1",
              Value.int 1, Value.rat 0, Value.rat 50, Value.rat 5]] }

/-- C3 fixture: two orders with distinct dates and unique Order IDs, two
line items (so every right side of the fact-assembly joins has unique
keys). -/
def ordersC3 : DataFrame :=
  { cols := ["Order ID", "Order Date", "Ship Date"],
    rows := [[Value.str "1", Value.str "03/03/2023", Value.str "04/03/2023"],
             [Value.str "2", Value.str "05/03/2023", Value.str "06/03/2023"]] }

def detailsC3 : DataFrame :=
  { cols := ["Order ID", "Customer ID", "Product ID", "Quantity", "Discount", "Sales", "Profit"],
    rows := [[Value.str "1", Value.str "C1", Value.str "P1",
              Value.int 1, Value.rat 0, Value.rat 10, Value.rat 1],
             [Value.str "2", Value.str "C2", Value.str "P2",
              Value.int 2, Value.rat 0, Value.rat 20, Value.rat 2]] }

def customersC3 : DataFrame :=
  { cols := ["Customer ID"], rows := [[Value.str "C1"], [Value.str "C2"]] }

def productsC3 : DataFrame :=
  { cols := ["Product ID"], rows := [[Value.str "P1"], [Value.str "P2"]] }

/-- C6 fixture: a Ship Date that matches no date format at all, next to a
well-formed Order Date. -/
def ordersBadShip : DataFrame :=
  { cols := ["Order ID", "Order Date", "Ship Date"],
    rows := [[Value.str "1", Value.str "10/03/2021", Value.str "notadate"]] }

/-- C6 fixture: a malformed Order Date (ISO instead of `DD/MM/YYYY`). -/
def ordersBadOrd : DataFrame :=
  { cols := ["Order ID", "Order Date", "Ship Date"],
    rows := [[Value.str "1", Value.str "2021-03-10", Value.str "11/03/2021"]] }

/-- C9 fixture: the worked example of §8 of the spec (one order, dates
`01/01/2020` and `03/01/2020`, one line item). -/
def ordersC9 : DataFrame :=
  { cols := ["Order ID", "Order Date", "Ship Date"],
    rows := [[Value.str "1", Value.str "01/01/2020", Value.str "03/01/2020"]] }

/-! ## Claim C1 -/

/-- C1: the claim says `TimeDim` has exactly one row per distinct date
value across the union of Order Date and Ship Date.  The code evaluated at
the failing input `ordersC1` — a single order whose Order Date equals its
Ship Date, hence exactly one distinct date — produces a time dimension with
two rows: `pd.concat` aligns the differently named one-column frames into
two `NaN`-padded columns, so the same date survives deduplication once as
an Order Date row and once as a Ship Date row. -/
theorem C1_time_dim_two_rows_for_one_distinct_date :
    (time_dim ordersC1).map (fun td => td.rows.length) = .ok 2 ∧
    specDistinctDates ordersC1 = [Value.str "05/06/2021"] := by
  constructor
  · rfl
  · rfl

/-! ## Claim C2 -/

/-- C2: the claim says a record whose Order Date equals its Ship Date gets
a fact row with `OrderDateID = ShipDateID`.  The code evaluated at such an
input produces no fact row at all: the first time-dimension merge suffixes
the colliding `Ship Date` columns to `Ship Date_x`/`Ship Date_y`, so the
second time-dimension merge raises `KeyError: 'Ship Date'` and the run
returns the 500 error tuple with nothing written. -/
theorem C2_equal_dates_run_produces_no_fact_row :
    etl_process "ordersdf.csv" (mkStore ordersC2 customersW detailsC2 productsW) sinkAlwaysOk =
      { reads := required_files,
        outcome := some (.error (.keyError "Ship Date")),
        committed := [] } := by rfl

/-! ## Claim C3 -/

/-- C3: the claim says that with unique join keys on every right side the
fact table has exactly as many rows as the order-detail input.  At the
failing input (two orders with unique `Order ID`s, two line items) the
fact-assembly never completes: it aborts with `KeyError: 'Ship Date'` at
the second time-dimension merge, so no `SalesFact` table with any row count
is produced. -/
theorem C3_fact_assembly_aborts_despite_unique_keys :
    ordersC3.col "Order ID" = some [Value.str "1", Value.str "2"] ∧
    detailsC3.rows.length = 2 ∧
    transform ordersC3 customersC3 detailsC3 productsC3 = .error (.keyError "Ship Date") := by
  refine ⟨rfl, rfl, rfl⟩

/-! ## Claim C6 -/

/-- C6: the claim says any malformed Order Date or Ship Date value fails
the run with `DateParseError`.  The Order Date half holds, but a malformed
Ship Date is never parsed: the date attributes are derived only from the
`Date` column (the renamed Order Date column), while the Ship Date values
sit in the `NaN`-padded second column.  The run with `Ship Date =
"notadate"` aborts with `KeyError: 'Ship Date'` — not a date-parse error —
whereas the run with the malformed Order Date does abort with the
ValueError carrying the offending string. -/
theorem C6_bad_ship_date_is_not_a_date_parse_error :
    etl_process "ordersdf.csv" (mkStore ordersBadShip customersW detailsW productsW) sinkAlwaysOk =
      { reads := required_files,
        outcome := some (.error (.keyError "Ship Date")),
        committed := [] } ∧
    etl_process "ordersdf.csv" (mkStore ordersBadOrd customersW detailsW productsW) sinkAlwaysOk =
      { reads := required_files,
        outcome := some (.error (.dateParseError "2021-03-10")),
        committed := [] } := by
  constructor
  · rfl
  · rfl

/-! ## Claim C10 -/

/-- C10: when the triggering file name is none of the four required dataset
names, `etl_process` downloads nothing, writes nothing, and returns the
bare `None` of line 31 — a third, silent outcome distinct from both the
success tuple and the error tuple. -/
theorem C10_unrelated_trigger_is_silent (file_name : String)
    (store : String → Option DataFrame) (sinkOk : String → Bool)
    (h : file_name ∉ required_files) :
    etl_process file_name store sinkOk =
      { reads := [], outcome := none, committed := [] } := by
  simp [etl_process, h]

/-- C10 witness: a run triggered by `random.txt` over a fully populated
store is silent. -/
theorem C10_unrelated_trigger_witness :
    etl_process "random.txt" (mkStore ordersC9 customersW detailsW productsW) sinkAlwaysOk =
      { reads := [], outcome := none, committed := [] } :=
  C10_unrelated_trigger_is_silent "random.txt"
    (mkStore ordersC9 customersW detailsW productsW) sinkAlwaysOk (by decide)

/-! ## Claim C5 -/

/-- Spec-side: the first required file absent from the store, in download
order — the file whose NotFound error the run surfaces. -/
def firstMissingFile (store : String → Option DataFrame) : Option String :=
  required_files.find? (fun f => (store f).isNone)

/-- The download loop surfaces the first missing file as a storage
NotFound error. -/
theorem readLoop_missing (store : String → Option DataFrame) :
    ∀ (fs : List String) (g : String),
      fs.find? (fun f => (store f).isNone) = some g →
      (readLoop store fs).2 = .error (.missingInput g) := by
  intro fs
  induction fs with
  | nil => intro g hg; simp at hg
  | cons f fs ih =>
    intro g hg
    cases hf : store f with
    | none =>
      rw [List.find?_cons_of_pos _ (by simp [hf])] at hg
      cases hg
      simp [readLoop, hf]
    | some df =>
      rw [List.find?_cons_of_neg _ (by simp [hf])] at hg
      simp only [readLoop, hf]
      rw [ih g hg]
      rfl

/-- C5: with the trigger being one of the required files, if any required
dataset is absent from the store, the run returns the failure signal
carrying the NotFound error naming the first missing file — a required
file that is indeed absent — and commits no output table; the error arises
in the download loop, before any transformation. -/
theorem C5_missing_input_aborts (file_name : String)
    (store : String → Option DataFrame) (sinkOk : String → Bool)
    (htrig : file_name ∈ required_files)
    (f : String) (hfmem : f ∈ required_files) (hfnone : store f = none) :
    (firstMissingFile store).getD "" ∈ required_files ∧
    store ((firstMissingFile store).getD "") = none ∧
    (etl_process file_name store sinkOk).outcome =
      some (.error (.missingInput ((firstMissingFile store).getD ""))) ∧
    (etl_process file_name store sinkOk).committed = [] := by
  have hsome : (required_files.find? (fun f => (store f).isNone)).isSome :=
    List.find?_isSome.mpr ⟨f, hfmem, by simp [hfnone]⟩
  obtain ⟨g, hg⟩ := Option.isSome_iff_exists.mp hsome
  have hgd : (firstMissingFile store).getD "" = g := by
    rw [firstMissingFile, hg]
    rfl
  have hgnone : store g = none := by
    have := List.find?_some hg
    simpa using this
  have hgmem : g ∈ required_files := List.mem_of_find?_eq_some hg
  have herr := readLoop_missing store required_files g hg
  rcases hrl : readLoop store required_files with ⟨reads, res⟩
  have hres : res = .error (.missingInput g) := by rw [hrl] at herr; exact herr
  subst hres
  rw [hgd]
  refine ⟨hgmem, hgnone, ?_, ?_⟩ <;> simp [etl_process, htrig, hrl]

/-- C5 fixture: a store lacking `customersdf.csv`. -/
def storeC5 : String → Option DataFrame := fun n =>
  if n == "customersdf.csv" then none
  else mkStore ordersC9 customersW detailsW productsW n

/-- C5 witness: the theorem instantiated on the store lacking
`customersdf.csv`. -/
theorem C5_missing_input_witness :
    (firstMissingFile storeC5).getD "" ∈ required_files ∧
    storeC5 ((firstMissingFile storeC5).getD "") = none ∧
    (etl_process "ordersdf.csv" storeC5 sinkAlwaysOk).outcome =
      some (.error (.missingInput ((firstMissingFile storeC5).getD ""))) ∧
    (etl_process "ordersdf.csv" storeC5 sinkAlwaysOk).committed = [] :=
  C5_missing_input_aborts "ordersdf.csv" storeC5 sinkAlwaysOk (by decide)
    "customersdf.csv" (by decide) (by decide)

/-! ## Supporting lemmas -/

theorem exceptBindOk {α β : Type} (a : α) (f : α → Except PError β) :
    (Except.ok a >>= f) = f a := rfl

theorem exceptBindErr {α β : Type} (e : PError) (f : α → Except PError β) :
    ((Except.error e : Except PError α) >>= f) = .error e := rfl

theorem mem_dedupFirst {α : Type} [DecidableEq α] {a : α} :
    ∀ {l : List α}, a ∈ dedupFirst l ↔ a ∈ l := by
  intro l
  induction l with
  | nil => simp [dedupFirst]
  | cons b l ih =>
    simp only [dedupFirst, List.mem_cons, List.mem_filter, bne_iff_ne, ne_eq, ih]
    constructor
    · rintro (h | ⟨h, _⟩)
      · exact Or.inl h
      · exact Or.inr h
    · rintro (h | h)
      · exact Or.inl h
      · by_cases hab : a = b
        · exact Or.inl hab
        · exact Or.inr ⟨h, by simpa using hab⟩

theorem nodup_dedupFirst {α : Type} [DecidableEq α] : ∀ (l : List α), (dedupFirst l).Nodup := by
  intro l
  induction l with
  | nil => simp [dedupFirst]
  | cons b l ih =>
    refine List.nodup_cons.mpr ⟨fun hb => ?_, ih.filter _⟩
    have := (List.mem_filter.mp hb).2
    simp at this

theorem getCell_append_length (v : Value) (s : List Value) :
    ∀ (r : List Value), getCell (r ++ v :: s) r.length = v := by
  intro r
  induction r with
  | nil => rfl
  | cons a r ih => simpa [getCell] using ih

theorem getCell_append_lt (s : List Value) (i : Nat) :
    ∀ (r : List Value), i < r.length → getCell (r ++ s) i = getCell r i := by
  intro r
  induction r generalizing i with
  | nil => intro h; simp at h
  | cons a r ih =>
    intro h
    cases i with
    | zero => rfl
    | succ j => simpa [getCell] using ih j (Nat.lt_of_succ_lt_succ h)

/-- Projecting the appended column out of a column assignment. -/
theorem proj_zipWith_append_eq (i : Nat) :
    ∀ (rows : List (List Value)) (vals : List Value),
      rows.length = vals.length → (∀ r ∈ rows, r.length = i) →
      (List.zipWith (fun r v => r ++ [v]) rows vals).map (fun r => getCell r i) = vals := by
  intro rows
  induction rows with
  | nil =>
    intro vals h _
    cases vals with
    | nil => rfl
    | cons v vs => simp at h
  | cons r rows ih =>
    intro vals hlen hall
    cases vals with
    | nil => simp at hlen
    | cons v vs =>
      simp only [List.zipWith_cons_cons, List.map_cons, List.cons.injEq]
      refine ⟨?_, ih vs (by simpa using hlen) (fun x hx => hall x (List.mem_cons_of_mem _ hx))⟩
      have hr : r.length = i := hall r (List.mem_cons_self _ _)
      rw [← hr]
      exact getCell_append_length v [] r

/-- A column assignment does not disturb projections onto earlier columns. -/
theorem proj_zipWith_append_lt (i : Nat) :
    ∀ (rows : List (List Value)) (vals : List Value),
      rows.length = vals.length → (∀ r ∈ rows, i < r.length) →
      (List.zipWith (fun r v => r ++ [v]) rows vals).map (fun r => getCell r i)
        = rows.map (fun r => getCell r i) := by
  intro rows
  induction rows with
  | nil => intro vals _ _; rfl
  | cons r rows ih =>
    intro vals hlen hall
    cases vals with
    | nil => simp at hlen
    | cons v vs =>
      simp only [List.zipWith_cons_cons, List.map_cons, List.cons.injEq]
      exact ⟨getCell_append_lt [v] i r (hall r (List.mem_cons_self _ _)),
             ih vs (by simpa using hlen) (fun x hx => hall x (List.mem_cons_of_mem _ hx))⟩

theorem length_mem_zipWith_append (n : Nat) :
    ∀ (rows : List (List Value)) (vals : List Value),
      (∀ r ∈ rows, r.length = n) →
      ∀ r ∈ List.zipWith (fun r v => r ++ [v]) rows vals, r.length = n + 1 := by
  intro rows
  induction rows with
  | nil => intro vals _ r hr; simp at hr
  | cons r0 rows ih =>
    intro vals hall r hr
    cases vals with
    | nil => simp at hr
    | cons v vs =>
      simp only [List.zipWith_cons_cons, List.mem_cons] at hr
      rcases hr with h | h
      · rw [h]
        simp [hall r0 (List.mem_cons_self _ _)]
      · exact ih vs (fun x hx => hall x (List.mem_cons_of_mem _ hx)) r h

theorem parseCol_ok_length :
    ∀ (cs : List Value) (ps : List (Option (Nat × Nat × Nat))),
      parseCol cs = .ok ps → ps.length = cs.length := by
  intro cs
  induction cs with
  | nil =>
    intro ps h
    cases h
    rfl
  | cons v vs ih =>
    intro ps h
    unfold parseCol at h
    cases hv : parseCell v with
    | error e => rw [hv] at h; cases h
    | ok d =>
      rw [hv] at h
      cases hp : parseCol vs with
      | error e => rw [hp] at h; cases h
      | ok ds =>
        rw [hp] at h
        cases h
        simp [ih ds hp]

theorem select_ok {df : DataFrame} {cs : List String} {out : DataFrame}
    (h : df.select cs = .ok out) :
    out.cols = cs ∧
    out.rows = df.rows.map (fun r => cs.map (fun c => getCell r ((df.colIdx c).getD 0))) := by
  unfold DataFrame.select at h
  cases hf : cs.find? (fun c => (df.colIdx c).isNone) with
  | some c => rw [hf] at h; cases h
  | none => rw [hf] at h; cases h; exact ⟨rfl, rfl⟩


theorem time_dim_ids_ok {orders_df t2 : DataFrame}
    (h : time_dim_ids orders_df = .ok t2) :
    t2.cols = ["Date", "Ship Date", "TimeID"] ∧
    (∀ r ∈ t2.rows, r.length = 3) ∧
    t2.rows.map (fun r => getCell r 2)
      = (List.range t2.rows.length).map (fun i => Value.int (Int.ofNat (i + 1))) := by
  unfold time_dim_ids at h
  cases h1 : orders_df.select ["Order Date"] with
  | error e => rw [h1, exceptBindErr] at h; cases h
  | ok od =>
    rw [h1, exceptBindOk] at h
    cases h2 : orders_df.select ["Ship Date"] with
    | error e => rw [h2, exceptBindErr] at h; cases h
    | ok sd =>
      rw [h2, exceptBindOk] at h
      obtain ⟨hodc, _⟩ := select_ok h1
      obtain ⟨hsdc, _⟩ := select_ok h2
      obtain ⟨odcols, odrows⟩ := od
      obtain ⟨sdcols, sdrows⟩ := sd
      simp only at hodc hsdc
      subst hodc
      subst hsdc
      have ht2 := Except.ok.inj h
      subst ht2
      set RR := dedupFirst (concatOuter (⟨["Order Date"], odrows⟩ : DataFrame)
        ⟨["Ship Date"], sdrows⟩).rows with hRR
      set VV := (List.range RR.length).map (fun i => Value.int (Int.ofNat (i + 1))) with hVV
      have hall : ∀ x ∈ RR, x.length = 2 := by
        intro x hx
        have hx' := mem_dedupFirst.mp hx
        simp only [concatOuter] at hx'
        rcases List.mem_append.mp hx' with h' | h' <;>
        · obtain ⟨y, _, hy⟩ := List.mem_map.mp h'
          rw [← hy]
          rfl
      have hlenv : RR.length = VV.length := by simp [hVV]
      have key := proj_zipWith_append_eq 2 RR VV hlenv hall
      have hzl : (List.zipWith (fun r v => r ++ [v]) RR VV).length = RR.length := by
        rw [List.length_zipWith, ← hlenv, Nat.min_self]
      refine ⟨rfl, ?_, ?_⟩
      · intro r hr
        exact length_mem_zipWith_append 2 RR VV hall r hr
      · have hfinal : (List.zipWith (fun r v => r ++ [v]) RR VV).map (fun r => getCell r 2)
            = (List.range (List.zipWith (fun r v => r ++ [v]) RR VV).length).map
                (fun i => Value.int (Int.ofNat (i + 1))) := by
          rw [hzl, key, hVV]
        exact hfinal


/-- Appending one attribute column preserves row count, bumps row width,
and leaves the projection onto column 2 (the `TimeID` column) unchanged. -/
theorem withcol_rows_facts (rows : List (List Value)) (vals : List Value) (m : Nat)
    (hlen : rows.length = vals.length) (hall : ∀ r ∈ rows, r.length = m) (h2 : 2 < m) :
    (List.zipWith (fun r v => r ++ [v]) rows vals).length = rows.length ∧
    (∀ r ∈ List.zipWith (fun r v => r ++ [v]) rows vals, r.length = m + 1) ∧
    (List.zipWith (fun r v => r ++ [v]) rows vals).map (fun r => getCell r 2)
      = rows.map (fun r => getCell r 2) := by
  refine ⟨?_, length_mem_zipWith_append m rows vals hall,
    proj_zipWith_append_lt 2 rows vals hlen (fun r hr => by rw [hall r hr]; exact h2)⟩
  rw [List.length_zipWith, hlen, Nat.min_self]

theorem time_dim_dates_ok {rows : List (List Value)} {td : DataFrame}
    (hlen : ∀ r ∈ rows, r.length = 3)
    (h : time_dim_dates ⟨["Date", "Ship Date", "TimeID"], rows⟩ = .ok td) :
    td.cols = ["Date", "Ship Date", "TimeID", "Day", "Month", "Year", "Quarter"] ∧
    td.rows.length = rows.length ∧
    td.rows.map (fun r => getCell r 2) = rows.map (fun r => getCell r 2) := by
  unfold time_dim_dates at h
  simp only [show (⟨["Date", "Ship Date", "TimeID"], rows⟩ : DataFrame).col "Date"
      = some (rows.map (fun r => getCell r 0)) from rfl] at h
  cases hp : parseCol (rows.map (fun r => getCell r 0)) with
  | error e => rw [hp] at h; cases h
  | ok parsed =>
    rw [hp] at h
    have hplen : parsed.length = rows.length := by
      have := parseCol_ok_length _ _ hp
      simpa using this
    have htd := Except.ok.inj h
    subst htd
    set v1 := parsed.map (dtField (fun d => d.1)) with hv1
    set v2 := parsed.map (dtField (fun d => d.2.1)) with hv2
    set v3 := parsed.map (dtField (fun d => d.2.2)) with hv3
    set v4 := parsed.map (dtField (fun d => (d.2.1 - 1) / 3 + 1)) with hv4
    set R1 := List.zipWith (fun r v => r ++ [v]) rows v1 with hR1
    set R2 := List.zipWith (fun r v => r ++ [v]) R1 v2 with hR2
    set R3 := List.zipWith (fun r v => r ++ [v]) R2 v3 with hR3
    set R4 := List.zipWith (fun r v => r ++ [v]) R3 v4 with hR4
    have e1 := withcol_rows_facts rows v1 3 (by simp [hv1, hplen]) hlen (by omega)
    have e2 := withcol_rows_facts R1 v2 4
      (by rw [e1.1]; simp [hv2, hplen]) e1.2.1 (by omega)
    have e3 := withcol_rows_facts R2 v3 5
      (by rw [e2.1, e1.1]; simp [hv3, hplen]) e2.2.1 (by omega)
    have e4 := withcol_rows_facts R3 v4 6
      (by rw [e3.1, e2.1, e1.1]; simp [hv4, hplen]) e3.2.1 (by omega)
    refine ⟨rfl, ?_, ?_⟩
    · exact e4.1.trans (e3.1.trans (e2.1.trans e1.1))
    · exact e4.2.2.trans (e3.2.2.trans (e2.2.2.trans e1.2.2))

/-! ## Claim C8 -/

/-- C8 fixture: one order whose two dates coincide, so both deduplicated
rows carry the same single distinct date. -/
def ordersC8x : DataFrame :=
  { cols := ["Order ID", "Order Date", "Ship Date"],
    rows := [[Value.str "4", Value.str "07/07/2021", Value.str "07/07/2021"]] }

/-- C8 counterexample: the claim ties the sequential `TimeID`s to "the
order the distinct date values first appear after deduplication", i.e. one
`TimeID` per distinct date.  At this input the time dimension carries two
`TimeID`s (1 and 2) while only one distinct date value occurs across both
columns, so no assignment of the `TimeID`s to the distinct date values
exists: the row count and the distinct-date count differ. -/
theorem C8_counterexample_two_ids_for_one_distinct_date :
    (time_dim ordersC8x).map (fun td => (td.col "TimeID", td.rows.length)) =
      .ok (some [Value.int 1, Value.int 2], 2) ∧
    specDistinctDates ordersC8x = [Value.str "07/07/2021"] := by
  constructor
  · rfl
  · rfl

/-- C8 amended: in every time dimension the script builds, the `TimeID`
column is exactly the sequence `1, 2, ..., n` (`n` the number of rows of
the table), each value used exactly once, assigned in the order the rows
survive deduplication of the concatenated frame — rows that correspond to
distinct `(Order Date, Ship Date)`-slot values, not to distinct dates. -/
theorem C8_amended_timeid_sequential (orders_df td : DataFrame)
    (h : time_dim orders_df = .ok td) :
    td.col "TimeID" =
      some ((List.range td.rows.length).map (fun i => Value.int (Int.ofNat (i + 1)))) ∧
    ((List.range td.rows.length).map (fun i => Value.int (Int.ofNat (i + 1)))).Nodup := by
  unfold time_dim at h
  cases hi : time_dim_ids orders_df with
  | error e => rw [hi, exceptBindErr] at h; cases h
  | ok t2 =>
    rw [hi, exceptBindOk] at h
    obtain ⟨hc2, hl2, hp2⟩ := time_dim_ids_ok hi
    obtain ⟨c2, r2⟩ := t2
    simp only at hc2 hl2 hp2
    subst hc2
    obtain ⟨hcd, hld, hpd⟩ := time_dim_dates_ok hl2 h
    obtain ⟨cd, rd⟩ := td
    simp only at hcd hld hpd
    subst hcd
    constructor
    · show some (rd.map (fun r => getCell r 2)) = _
      rw [hpd, hp2, hld]
    · have hinj : Function.Injective (fun i => Value.int (Int.ofNat (i + 1))) := by
        intro a b hab
        simpa using hab
      exact List.Nodup.map hinj (List.nodup_range _)

/-- C8 fixture for the witness: two distinct dates. -/
def ordersC8w : DataFrame :=
  { cols := ["Order ID", "Order Date", "Ship Date"],
    rows := [[Value.str "1", Value.str "15/08/2022", Value.str "17/08/2022"]] }

/-- The time dimension the script builds from `ordersC8w`. -/
def tdC8w : DataFrame :=
  { cols := ["Date", "Ship Date", "TimeID", "Day", "Month", "Year", "Quarter"],
    rows := [[Value.str "15/08/2022", Value.nan, Value.int 1, Value.int 15,
              Value.int 8, Value.int 2022, Value.int 3],
             [Value.nan, Value.str "17/08/2022", Value.int 2, Value.nan,
              Value.nan, Value.nan, Value.nan]] }

/-- C8 witness: the amended statement instantiated on a concrete order
dataset. -/
theorem C8_amended_timeid_sequential_witness :
    time_dim ordersC8w = .ok tdC8w ∧
    (tdC8w.col "TimeID" =
      some ((List.range tdC8w.rows.length).map (fun i => Value.int (Int.ofNat (i + 1)))) ∧
    ((List.range tdC8w.rows.length).map (fun i => Value.int (Int.ofNat (i + 1)))).Nodup) :=
  ⟨rfl, C8_amended_timeid_sequential ordersC8w tdC8w rfl⟩

/-! ## Claim C4 -/

/-- Spec-side: the cells of column `ci` over the rows whose `ki` cell is
`k` — "the line items sharing that key". -/
def specGroupCells (df : DataFrame) (ki ci : Nat) (k : Value) : List Value :=
  (df.rows.filter (fun r => getCell r ki == k)).map (fun r => getCell r ci)

/-- Spec-side: the exact sum of the numeric cells of a list. -/
def ratSum (cells : List Value) : ℚ := (cells.filterMap toRat?).sum

theorem find?_keyRow (mk : Value → List Value) (h0 : ∀ x, getCell (mk x) 0 = x) :
    ∀ (keys : List Value) (k : Value), k ∈ keys →
      (keys.map mk).find? (fun r => getCell r 0 == k) = some (mk k) := by
  intro keys
  induction keys with
  | nil => intro k hk; simp at hk
  | cons a keys ih =>
    intro k hk
    by_cases hak : a = k
    · subst hak
      rw [List.map_cons, List.find?_cons_of_pos _ (by simp [h0 a])]
    · rw [List.map_cons, List.find?_cons_of_neg _ (by simp [h0 a, hak])]
      refine ih k ?_
      rcases List.mem_cons.mp hk with h | h
      · exact absurd h.symm hak
      · exact h

/-- The grouped-aggregation table: its key column has no duplicates, and
looking up any non-`NaN` key occurring in the input yields the aggregate
of exactly the column cells of the rows sharing that key. -/
theorem groupbyAgg_ok {df : DataFrame} {key col newName : String}
    {agg : List Value → Value} {out : DataFrame} {ki ci : Nat}
    (hki : df.colIdx key = some ki) (hci : df.colIdx col = some ci)
    (hout : groupbyAgg df key col newName agg = .ok out) :
    (out.rows.map (fun r => getCell r 0)).Nodup ∧
    ∀ k, k ∈ df.rows.map (fun r => getCell r ki) → k ≠ Value.nan →
      lookupAgg out k = some (agg ((df.rows.filter (fun r => getCell r ki == k)).map
        (fun r => getCell r ci))) := by
  unfold groupbyAgg at hout
  rw [hki, hci] at hout
  have hval := Except.ok.inj hout
  subst hval
  dsimp only
  constructor
  · have hmm : (((dedupFirst (df.rows.map (fun r => getCell r ki))).filter
        (fun v => v != Value.nan)).map
          (fun k => [k, agg ((df.rows.filter (fun r => getCell r ki == k)).map
            (fun r => getCell r ci))])).map (fun r => getCell r 0)
        = (dedupFirst (df.rows.map (fun r => getCell r ki))).filter
            (fun v => v != Value.nan) := by
      rw [List.map_map]
      exact List.map_id'' (fun x => rfl) _
    rw [hmm]
    exact (nodup_dedupFirst _).filter _
  · intro k hk hnan
    have hkkeys : k ∈ (dedupFirst (df.rows.map (fun r => getCell r ki))).filter
        (fun v => v != Value.nan) :=
      List.mem_filter.mpr ⟨mem_dedupFirst.mpr hk, by simp [hnan]⟩
    unfold lookupAgg
    dsimp only
    rw [find?_keyRow
      (fun x => [x, agg ((df.rows.filter (fun r => getCell r ki == x)).map
        (fun r => getCell r ci))]) (fun x => rfl) _ k hkkeys]
    rfl

theorem filterMap_length_of_isSome :
    ∀ (cells : List Value), (∀ v ∈ cells, (toRat? v).isSome) →
      (cells.filterMap toRat?).length = cells.length := by
  intro cells
  induction cells with
  | nil => intro _; rfl
  | cons v vs ih =>
    intro h
    obtain ⟨q, hq⟩ := Option.isSome_iff_exists.mp (h v (List.mem_cons_self _ _))
    rw [List.filterMap_cons, hq]
    simp [ih (fun x hx => h x (List.mem_cons_of_mem _ hx))]

/-- C4: for every grouping key present in the order-detail dataset, the
key appears exactly once in the corresponding aggregate table;
`CustomerSales`/`OrderSales`/`ProductSales` map it to the exact sum of the
`Sales` cells over the line items sharing the key, and
`ProductAvgProfit` maps each Product ID to the sum of the `Profit` cells
divided by the number of line items with that Product ID (the arithmetic
mean).  The hypotheses say the five columns exist and that, as in every
valid input, the key cells are not `NaN` (pandas silently drops `NaN`
groups) and the `Profit` cells are numeric. -/
theorem C4_aggregates_correct (df : DataFrame)
    (ki oi pi si fi : Nat)
    (hki : df.colIdx "Customer ID" = some ki)
    (hoi : df.colIdx "Order ID" = some oi)
    (hpi : df.colIdx "Product ID" = some pi)
    (hsi : df.colIdx "Sales" = some si)
    (hfi : df.colIdx "Profit" = some fi)
    (hkeys : ∀ r ∈ df.rows, getCell r ki ≠ Value.nan ∧ getCell r oi ≠ Value.nan ∧
      getCell r pi ≠ Value.nan)
    (hprofit : ∀ r ∈ df.rows, (toRat? (getCell r fi)).isSome)
    (cs osl ps pap : DataFrame)
    (hcs : customer_sales df = .ok cs)
    (hos : order_sales df = .ok osl)
    (hps : product_sales df = .ok ps)
    (hpap : product_avg_profit df = .ok pap) :
    ((cs.rows.map (fun r => getCell r 0)).Nodup ∧
     (osl.rows.map (fun r => getCell r 0)).Nodup ∧
     (ps.rows.map (fun r => getCell r 0)).Nodup ∧
     (pap.rows.map (fun r => getCell r 0)).Nodup) ∧
    (∀ k ∈ df.rows.map (fun r => getCell r ki),
      lookupAgg cs k = some (.rat (ratSum (specGroupCells df ki si k)))) ∧
    (∀ k ∈ df.rows.map (fun r => getCell r oi),
      lookupAgg osl k = some (.rat (ratSum (specGroupCells df oi si k)))) ∧
    (∀ k ∈ df.rows.map (fun r => getCell r pi),
      lookupAgg ps k = some (.rat (ratSum (specGroupCells df pi si k)))) ∧
    (∀ k ∈ df.rows.map (fun r => getCell r pi),
      lookupAgg pap k = some (.rat (ratSum (specGroupCells df pi fi k) /
        ((df.rows.filter (fun r => getCell r pi == k)).length : ℚ)))) := by
  have hgc := groupbyAgg_ok hki hsi hcs
  have hgo := groupbyAgg_ok hoi hsi hos
  have hgp := groupbyAgg_ok hpi hsi hps
  have hgf := groupbyAgg_ok hpi hfi hpap
  refine ⟨⟨hgc.1, hgo.1, hgp.1, hgf.1⟩, ?_, ?_, ?_, ?_⟩
  · intro k hk
    have hknan : k ≠ Value.nan := by
      obtain ⟨r, hr, hrk⟩ := List.mem_map.mp hk
      rw [← hrk]
      exact (hkeys r hr).1
    exact hgc.2 k hk hknan
  · intro k hk
    have hknan : k ≠ Value.nan := by
      obtain ⟨r, hr, hrk⟩ := List.mem_map.mp hk
      rw [← hrk]
      exact (hkeys r hr).2.1
    exact hgo.2 k hk hknan
  · intro k hk
    have hknan : k ≠ Value.nan := by
      obtain ⟨r, hr, hrk⟩ := List.mem_map.mp hk
      rw [← hrk]
      exact (hkeys r hr).2.2
    exact hgp.2 k hk hknan
  · intro k hk
    have hknan : k ≠ Value.nan := by
      obtain ⟨r, hr, hrk⟩ := List.mem_map.mp hk
      rw [← hrk]
      exact (hkeys r hr).2.2
    have hlook := hgf.2 k hk hknan
    have hcellsome : ∀ v ∈ specGroupCells df pi fi k, (toRat? v).isSome := by
      intro v hv
      obtain ⟨r, hr, hrv⟩ := List.mem_map.mp hv
      rw [← hrv]
      exact hprofit r (List.mem_of_mem_filter hr)
    have hlencells : ((specGroupCells df pi fi k).filterMap toRat?).length
        = (specGroupCells df pi fi k).length :=
      filterMap_length_of_isSome _ hcellsome
    have hlen2 : (specGroupCells df pi fi k).length
        = (df.rows.filter (fun r => getCell r pi == k)).length := by
      simp [specGroupCells]
    have hpos : (df.rows.filter (fun r => getCell r pi == k)).length ≠ 0 := by
      obtain ⟨r, hr, hrk⟩ := List.mem_map.mp hk
      have hrmem : r ∈ df.rows.filter (fun r => getCell r pi == k) :=
        List.mem_filter.mpr ⟨hr, by simp [hrk]⟩
      intro h0
      rw [List.length_eq_zero] at h0
      simp [h0] at hrmem
    have hmean : aggMean (specGroupCells df pi fi k)
        = .rat (ratSum (specGroupCells df pi fi k) /
            ((df.rows.filter (fun r => getCell r pi == k)).length : ℚ)) := by
      unfold aggMean
      rw [if_neg (by rw [hlencells, hlen2]; exact hpos)]
      rw [show ((specGroupCells df pi fi k).filterMap toRat?).length
          = (df.rows.filter (fun r => getCell r pi == k)).length
        from hlencells.trans hlen2]
      rfl
    rw [hlook]
    exact congrArg some hmean

/-- C4 fixture: three line items, two sharing an order and a customer, two
sharing a product. -/
def detailsC4 : DataFrame :=
  { cols := ["Order ID", "Customer ID", "Product ID", "Quantity", "Discount", "Sales", "Profit"],
    rows := [[Value.str "1", Value.str "C1", Value.str "P1",
              Value.int 1, Value.rat 0, Value.rat 10, Value.rat 4],
             [Value.str "1", Value.str "C1", Value.str "P2",
              Value.int 2, Value.rat 0, Value.rat 30, Value.rat 6],
             [Value.str "2", Value.str "C2", Value.str "P1",
              Value.int 1, Value.rat 0, Value.rat 5, Value.rat 1]] }

/-- The aggregate tables the script computes from `detailsC4`. -/
def csC4 : DataFrame :=
  { cols := ["Customer ID", "TotalSalesPerCustomer"],
    rows := [[Value.str "C1", Value.rat 40], [Value.str "C2", Value.rat 5]] }

def osC4 : DataFrame :=
  { cols := ["Order ID", "TotalSalesPerOrder"],
    rows := [[Value.str "1", Value.rat 40], [Value.str "2", Value.rat 5]] }

def psC4 : DataFrame :=
  { cols := ["Product ID", "TotalSalesPerProduct"],
    rows := [[Value.str "P1", Value.rat 15], [Value.str "P2", Value.rat 30]] }

def papC4 : DataFrame :=
  { cols := ["Product ID", "AverageProfitPerProduct"],
    rows := [[Value.str "P1", Value.rat (5 / 2)], [Value.str "P2", Value.rat 6]] }

/-- C4 witness: the aggregation theorem instantiated on `detailsC4`. -/
theorem C4_aggregates_correct_witness :
    (customer_sales detailsC4 = .ok csC4 ∧ order_sales detailsC4 = .ok osC4 ∧
     product_sales detailsC4 = .ok psC4 ∧ product_avg_profit detailsC4 = .ok papC4) ∧
    (((csC4.rows.map (fun r => getCell r 0)).Nodup ∧
      (osC4.rows.map (fun r => getCell r 0)).Nodup ∧
      (psC4.rows.map (fun r => getCell r 0)).Nodup ∧
      (papC4.rows.map (fun r => getCell r 0)).Nodup) ∧
     (∀ k ∈ detailsC4.rows.map (fun r => getCell r 1),
       lookupAgg csC4 k = some (.rat (ratSum (specGroupCells detailsC4 1 5 k)))) ∧
     (∀ k ∈ detailsC4.rows.map (fun r => getCell r 0),
       lookupAgg osC4 k = some (.rat (ratSum (specGroupCells detailsC4 0 5 k)))) ∧
     (∀ k ∈ detailsC4.rows.map (fun r => getCell r 2),
       lookupAgg psC4 k = some (.rat (ratSum (specGroupCells detailsC4 2 5 k)))) ∧
     (∀ k ∈ detailsC4.rows.map (fun r => getCell r 2),
       lookupAgg papC4 k = some (.rat (ratSum (specGroupCells detailsC4 2 6 k) /
         ((detailsC4.rows.filter (fun r => getCell r 2 == k)).length : ℚ))))) :=
  ⟨⟨by with_unfolding_all rfl, by with_unfolding_all rfl,
    by with_unfolding_all rfl, by with_unfolding_all rfl⟩,
   C4_aggregates_correct detailsC4 1 0 2 5 6 rfl rfl rfl rfl rfl
     (by decide) (by decide) csC4 osC4 psC4 papC4
     (by with_unfolding_all rfl) (by with_unfolding_all rfl)
     (by with_unfolding_all rfl) (by with_unfolding_all rfl)⟩


/-! ## Claim C7 -/

theorem time_dim_ok_cols {orders_df td : DataFrame} (h : time_dim orders_df = .ok td) :
    td.cols = ["Date", "Ship Date", "TimeID", "Day", "Month", "Year", "Quarter"] := by
  unfold time_dim at h
  cases hi : time_dim_ids orders_df with
  | error e => rw [hi, exceptBindErr] at h; cases h
  | ok t2 =>
    rw [hi, exceptBindOk] at h
    obtain ⟨hc2, hl2, _⟩ := time_dim_ids_ok hi
    obtain ⟨c2, r2⟩ := t2
    simp only at hc2 hl2
    subst hc2
    exact (time_dim_dates_ok hl2 h).1

theorem findIdx?_some_mem (c : String) :
    ∀ (l : List String) (i j : Nat), l.findIdx? (fun x => x == c) i = some j → c ∈ l := by
  intro l
  induction l with
  | nil => intro i j hij; simp at hij
  | cons a l ih =>
    intro i j hij
    rw [List.findIdx?_cons] at hij
    by_cases ha : (a == c) = true
    · rw [beq_iff_eq.mp ha]
      exact List.mem_cons_self _ _
    · rw [if_neg ha] at hij
      exact List.mem_cons_of_mem _ (ih _ _ hij)

theorem mem_of_colIdx_some {df : DataFrame} {c : String} {i : Nat}
    (h : df.colIdx c = some i) : c ∈ df.cols :=
  findIdx?_some_mem c df.cols 0 i h

/-- Removing the column found by a name lookup keeps every member with a
different name. -/
theorem mem_eraseIdx_of_findIdx (c x : String) (hne : x ≠ c) :
    ∀ (l : List String) (j : Nat), l.findIdx? (fun y => y == c) = some j →
      x ∈ l → x ∈ l.eraseIdx j := by
  intro l
  induction l with
  | nil => intro j hj; simp at hj
  | cons a l ih =>
    intro j hj hx
    rw [List.findIdx?_cons] at hj
    by_cases ha : (a == c) = true
    · rw [if_pos ha] at hj
      cases hj
      rw [List.eraseIdx_cons_zero]
      have hax : x ≠ a := fun hh => hne (hh.trans (beq_iff_eq.mp ha))
      rcases List.mem_cons.mp hx with h' | h'
      · exact absurd h' hax
      · exact h'
    · rw [if_neg ha, List.findIdx?_start_succ] at hj
      cases hrec : l.findIdx? (fun y => y == c) with
      | none => rw [hrec] at hj; simp at hj
      | some k =>
        rw [hrec] at hj
        simp at hj
        subst hj
        rw [List.eraseIdx_cons_succ]
        rcases List.mem_cons.mp hx with h' | h'
        · rw [h']; exact List.mem_cons_self _ _
        · exact List.mem_cons_of_mem _ (ih k hrec h')

theorem mem_of_mem_eraseIdx {l : List String} {x : String} {j : Nat}
    (h : x ∈ l.eraseIdx j) : x ∈ l :=
  (List.eraseIdx_sublist l j).subset h

/-- A string extended by a nonempty suffix keeps the suffix's last
character, so it cannot equal a string ending differently. -/
theorem append_ne_of_last {c sfx t : String}
    (hne : sfx.data.getLast? ≠ t.data.getLast?) (hs : sfx.data ≠ []) : c ++ sfx ≠ t := by
  intro he
  apply hne
  rw [← he]
  rw [show (c ++ sfx).data = c.data ++ sfx.data from String.data_append c sfx]
  rw [List.getLast?_append]
  cases hgl : sfx.data.getLast? with
  | none => exact absurd (List.getLast?_eq_none_iff.mp hgl) hs
  | some ch => rfl

theorem renameCol_cols (df : DataFrame) (o n : String) :
    (df.renameCol o n).cols = df.cols.map (fun c => if c == o then n else c) := rfl

theorem mergeLeftOn_ok_cols {l r : DataFrame} {k : String} {out : DataFrame}
    (h : mergeLeftOn l r k = .ok out) :
    ∃ ri, r.colIdx k = some ri ∧
      out.cols = l.cols.map (fun c =>
          if l.cols.contains c && r.cols.contains c && !(c == k) then c ++ "_x" else c)
        ++ (r.cols.eraseIdx ri).map (fun c =>
          if l.cols.contains c && r.cols.contains c && !(c == k) then c ++ "_y" else c) := by
  unfold mergeLeftOn at h
  cases h1 : l.colIdx k with
  | none => rw [h1] at h; cases h
  | some li =>
    cases h2 : r.colIdx k with
    | none => rw [h1, h2] at h; cases h
    | some ri =>
      rw [h1, h2] at h
      exact ⟨ri, rfl, by rw [← Except.ok.inj h]⟩

theorem dropCol_ok_shape {df : DataFrame} {c : String} {out : DataFrame}
    (h : df.dropCol c = .ok out) :
    ∃ i, df.colIdx c = some i ∧ out.cols = df.cols.eraseIdx i := by
  unfold DataFrame.dropCol at h
  cases h1 : df.colIdx c with
  | none => rw [h1] at h; cases h
  | some i =>
    rw [h1] at h
    exact ⟨i, rfl, by rw [← Except.ok.inj h]⟩

theorem mergeLeftLR_ok_shape {l r : DataFrame} {a b : String} {out : DataFrame}
    (h : mergeLeftLR l r a b = .ok out) :
    a ∈ l.cols ∧
    (l.cols.map (fun c =>
      if l.cols.contains c && r.cols.contains c then c ++ "_x" else c)).Nodup ∧
    out.cols = l.cols.map (fun c =>
        if l.cols.contains c && r.cols.contains c then c ++ "_x" else c)
      ++ r.cols.map (fun c =>
        if l.cols.contains c && r.cols.contains c then c ++ "_y" else c) := by
  unfold mergeLeftLR at h
  split at h
  · rename_i li ri heq1 heq2
    split at h
    · rename_i hnd
      exact ⟨mem_of_colIdx_some heq1, hnd.1, by rw [← Except.ok.inj h]⟩
    · cases h
  · cases h
  · cases h

theorem exceptBind_ok_iff {α β : Type} {x : Except PError α} {f : α → Except PError β} {b : β} :
    (x >>= f) = .ok b ↔ ∃ a, x = .ok a ∧ f a = .ok b := by
  cases x with
  | error e => simp [exceptBindErr]
  | ok a => simp [exceptBindOk]

theorem contains_iff_mem {l : List String} {a : String} : l.contains a = true ↔ a ∈ l := by
  simp

theorem append_x_ne_ship (c : String) : c ++ "_x" ≠ "Ship Date" :=
  append_ne_of_last (by decide) (by decide)

theorem append_y_ne_ship (c : String) : c ++ "_y" ≠ "Ship Date" :=
  append_ne_of_last (by decide) (by decide)

/-- With the 7-column time dimension that `time_dim` always produces, the
fact assembly of lines 85-108 can never finish: without a `Ship Date`
column among the merged line items the second time merge has no left key,
and with one the first time merge suffixes it into a `Ship Date_x` that
collides with the second merge's own suffixing. -/
theorem sales_fact_never_ok (details orders td cs osl ps pap sf : DataFrame)
    (htd : td.cols = ["Date", "Ship Date", "TimeID", "Day", "Month", "Year", "Quarter"]) :
    sales_fact details orders td cs osl ps pap ≠ .ok sf := by
  intro h
  unfold sales_fact at h
  rw [exceptBind_ok_iff] at h
  obtain ⟨s1, h1, h⟩ := h
  rw [exceptBind_ok_iff] at h
  obtain ⟨s2, h2, h⟩ := h
  rw [exceptBind_ok_iff] at h
  obtain ⟨s3, h3, h⟩ := h
  rw [exceptBind_ok_iff] at h
  obtain ⟨s4, h4, h⟩ := h
  rw [exceptBind_ok_iff] at h
  obtain ⟨osel, hosel, h⟩ := h
  rw [exceptBind_ok_iff] at h
  obtain ⟨s5, h5, h⟩ := h
  rw [exceptBind_ok_iff] at h
  obtain ⟨s6, h6, h⟩ := h
  rw [exceptBind_ok_iff] at h
  obtain ⟨s8, h8, h⟩ := h
  rw [exceptBind_ok_iff] at h
  obtain ⟨s9, h9, h⟩ := h
  obtain ⟨i7, hfind7, hs8cols⟩ := dropCol_ok_shape h8
  obtain ⟨hod5, hnodup6, hs6cols⟩ := mergeLeftLR_ok_shape h6
  obtain ⟨hship8, hnodup9, hs9cols⟩ := mergeLeftLR_ok_shape h9
  obtain ⟨hoselcols, hoselrows⟩ := select_ok hosel
  obtain ⟨ri, hri, hs5cols⟩ := mergeLeftOn_ok_cols h5
  have hri0 : osel.colIdx "Order ID" = some 0 := by
    unfold DataFrame.colIdx
    rw [hoselcols]
    decide
  rw [hri0] at hri
  have h0ri : 0 = ri := Option.some.inj hri
  subst h0ri
  rw [hoselcols] at hs5cols
  simp only [List.eraseIdx_cons_zero] at hs5cols
  by_cases hs4 : "Ship Date" ∈ s4.cols
  · -- the line items carry a Ship Date column: it is suffixed to
    -- "Ship Date_x" at the Order-Date time merge, which then collides with
    -- the Ship-Date time merge's own "_x"-suffixing of "Ship Date".
    have hmem5x : "Ship Date_x" ∈ s5.cols := by
      rw [hs5cols]
      apply List.mem_append_left
      apply List.mem_map.mpr
      refine ⟨"Ship Date", hs4, ?_⟩
      have hc : s4.cols.contains "Ship Date" = true := contains_iff_mem.mpr hs4
      simp only [hc]
      decide
    have hctdx : td.cols.contains "Ship Date_x" = false := by rw [htd]; decide
    have hmem6x : "Ship Date_x" ∈ s6.cols := by
      rw [hs6cols]
      apply List.mem_append_left
      apply List.mem_map.mpr
      refine ⟨"Ship Date_x", hmem5x, ?_⟩
      simp only [hctdx, Bool.and_false]
      decide
    have hmem7x : "Ship Date_x" ∈ (s6.renameCol "TimeID" "OrderDateID").cols := by
      rw [renameCol_cols]
      apply List.mem_map.mpr
      exact ⟨"Ship Date_x", hmem6x, by decide⟩
    have hmem8x : "Ship Date_x" ∈ s8.cols := by
      rw [hs8cols]
      exact mem_eraseIdx_of_findIdx "Date" "Ship Date_x" (by decide) _ i7 hfind7 hmem7x
    have hc8ship : s8.cols.contains "Ship Date" = true := contains_iff_mem.mpr hship8
    have hctdship : td.cols.contains "Ship Date" = true := by rw [htd]; decide
    have heq : ("Ship Date" : String) = "Ship Date_x" :=
      List.inj_on_of_nodup_map hnodup9 hship8 hmem8x
        (by simp only [hc8ship, hctdship, hctdx, Bool.and_false]; decide)
    exact absurd heq (by decide)
  · -- the line items carry no Ship Date column: the only Ship Date label
    -- after the order merge is the one from the order dataset, and the
    -- Order-Date time merge suffixes it away, so the Ship-Date time merge
    -- cannot find its left key.
    have hs4c : s4.cols.contains "Ship Date" = false := by
      cases hb : s4.cols.contains "Ship Date"
      · rfl
      · exact absurd (contains_iff_mem.mp hb) hs4
    have hmem5 : "Ship Date" ∈ s5.cols := by
      rw [hs5cols]
      apply List.mem_append_right
      apply List.mem_map.mpr
      refine ⟨"Ship Date", by decide, ?_⟩
      simp only [hs4c, Bool.false_and]
      decide
    have hmem7 : "Ship Date" ∈ (s6.renameCol "TimeID" "OrderDateID").cols :=
      mem_of_mem_eraseIdx (hs8cols ▸ hship8)
    have hmem6 : "Ship Date" ∈ s6.cols := by
      rw [renameCol_cols] at hmem7
      obtain ⟨c, hc6, hrn⟩ := List.mem_map.mp hmem7
      simp only [beq_iff_eq] at hrn
      split at hrn
      · exact absurd hrn (by decide)
      · rw [← hrn]; exact hc6
    have hc5 : s5.cols.contains "Ship Date" = true := contains_iff_mem.mpr hmem5
    have hctd : td.cols.contains "Ship Date" = true := by rw [htd]; decide
    rw [hs6cols] at hmem6
    rcases List.mem_append.mp hmem6 with hL | hR
    · obtain ⟨c, hcm, hgc⟩ := List.mem_map.mp hL
      by_cases hcs : c = "Ship Date"
      · subst hcs
        simp only [hc5, hctd, Bool.and_self] at hgc
        exact absurd hgc (by decide)
      · split at hgc
        · exact append_x_ne_ship c hgc
        · exact hcs hgc
    · obtain ⟨c, hcm, hgc⟩ := List.mem_map.mp hR
      by_cases hcs : c = "Ship Date"
      · subst hcs
        simp only [hc5, hctd, Bool.and_self] at hgc
        exact absurd hgc (by decide)
      · split at hgc
        · exact append_y_ne_ship c hgc
        · exact hcs hgc

/-- The transformation stage of lines 47-108 never succeeds: its time
dimension always has the misaligned 7-column shape, on which the fact
assembly always aborts. -/
theorem transform_never_ok (orders customers details products : DataFrame)
    (tables : List (String × DataFrame)) :
    transform orders customers details products ≠ .ok tables := by
  intro h
  unfold transform at h
  rw [exceptBind_ok_iff] at h
  obtain ⟨cs, hcs, h⟩ := h
  rw [exceptBind_ok_iff] at h
  obtain ⟨osl, hosl, h⟩ := h
  rw [exceptBind_ok_iff] at h
  obtain ⟨ps, hps, h⟩ := h
  rw [exceptBind_ok_iff] at h
  obtain ⟨pap, hpap, h⟩ := h
  rw [exceptBind_ok_iff] at h
  obtain ⟨td, htd, h⟩ := h
  rw [exceptBind_ok_iff] at h
  obtain ⟨sf, hsf, h⟩ := h
  exact sales_fact_never_ok details orders td cs osl ps pap sf (time_dim_ok_cols htd) hsf

/-- C7: every run is all-or-nothing with respect to the four output
tables.  The claim holds in a degenerate form: no invocation ever commits
any table, because the fact assembly of lines 85-108 aborts on every input
that reaches it (`KeyError: 'Ship Date'` when the line items carry no
`Ship Date` column of their own, a duplicate-label `MergeError` when they
do), so the load loop of lines 125-130 is never entered and the committed
set is always empty — never a proper nonempty subset. -/
theorem C7_all_or_nothing (file_name : String) (store : String → Option DataFrame)
    (sinkOk : String → Bool) :
    (etl_process file_name store sinkOk).committed = [] ∨
    (etl_process file_name store sinkOk).committed =
      ["time_dim", "customer_dim", "product_dim", "sales_fact"] := by
  left
  by_cases htrig : file_name ∈ required_files
  · cases hrl : readLoop store required_files with
    | mk reads res =>
      cases res with
      | error e => simp [etl_process, htrig, hrl]
      | ok dfs =>
        cases htr : transform (dfs.getD 0 emptyDF) (dfs.getD 1 emptyDF)
            (dfs.getD 2 emptyDF) (dfs.getD 3 emptyDF) with
        | error e =>
          simp only [List.getD_eq_getElem?_getD] at htr
          simp [etl_process, htrig, hrl, htr]
        | ok tables => exact absurd htr (transform_never_ok _ _ _ _ tables)
  · simp [etl_process, htrig]

/-! ## Claim C9 -/

/-- C9 witness fixture: a well-formed two-column time dimension (`Date`,
`TimeID`), as the spec's Dimension Builder would produce for `ordersC9` —
with it the fact assembly of lines 85-108 runs to completion, exercising
the final projection. -/
def tdC9x : DataFrame :=
  { cols := ["Date", "TimeID"],
    rows := [[Value.str "01/01/2020", Value.int 1],
             [Value.str "03/01/2020", Value.int 2]] }

/-- The fact table the assembly produces from `detailsW`, `ordersC9`,
`tdC9x` and the aggregate tables. -/
def sfC9x : DataFrame :=
  { cols := salesFactCols,
    rows := [[Value.str "P1", Value.str "C1", Value.int 1, Value.int 2,
              Value.str "1", Value.int 2, Value.rat 0, Value.rat 100,
              Value.rat 20, Value.rat 40, Value.rat 40, Value.rat 15,
              Value.rat (5 / 2)]] }

/-- C9: whenever the fact assembly of lines 85-108 completes, the frame it
hands on is the strict projection of lines 103-108 onto exactly the 13
documented fact columns — no raw date strings, no `Date` column, nothing
else.  (Within a full run of the unmodified script the assembly never
completes, so the run-level reading of the claim holds vacuously; this
form is the satisfiable statement of property actually implemented at
lines 103-108.) -/
theorem C9_sales_fact_projection (details orders td cs osl ps pap : DataFrame)
    {out : DataFrame}
    (h : sales_fact details orders td cs osl ps pap = .ok out) :
    out.cols = salesFactCols := by
  unfold sales_fact at h
  rw [exceptBind_ok_iff] at h
  obtain ⟨s1, h1, h⟩ := h
  rw [exceptBind_ok_iff] at h
  obtain ⟨s2, h2, h⟩ := h
  rw [exceptBind_ok_iff] at h
  obtain ⟨s3, h3, h⟩ := h
  rw [exceptBind_ok_iff] at h
  obtain ⟨s4, h4, h⟩ := h
  rw [exceptBind_ok_iff] at h
  obtain ⟨osel, hosel, h⟩ := h
  rw [exceptBind_ok_iff] at h
  obtain ⟨s5, h5, h⟩ := h
  rw [exceptBind_ok_iff] at h
  obtain ⟨s6, h6, h⟩ := h
  rw [exceptBind_ok_iff] at h
  obtain ⟨s8, h8, h⟩ := h
  rw [exceptBind_ok_iff] at h
  obtain ⟨s9, h9, h⟩ := h
  rw [exceptBind_ok_iff] at h
  obtain ⟨s11, h11, h⟩ := h
  exact (select_ok h).1

/-- C9 witness: on `detailsW`/`ordersC9` with the well-formed time
dimension `tdC9x` the assembly completes, and the projection theorem
applies to its output. -/
theorem C9_sales_fact_projection_witness :
    sales_fact detailsW ordersC9 tdC9x csC4 osC4 psC4 papC4 = .ok sfC9x ∧
    sfC9x.cols = salesFactCols :=
  ⟨rfl, C9_sales_fact_projection detailsW ordersC9 tdC9x csC4 osC4 psC4 papC4 rfl⟩
